import Mathlib

/-!
Shallow embedding of `src/generate_descriptions.py` (AIDescriptor).

The program augments a table of (title, description) rows with AI-generated
text obtained from an external HTTP API.  The embedding models the observable
behaviour of the three core functions:

* `generate_description`          (source lines 28-99)
* `generate_description_with_agent` (source lines 102-187)
* `process_file`                  (source lines 190-275)

External effects (HTTP responses, environment variables, files) are passed in
explicitly as data.  A Python exception escaping a function is modelled as
`Except.error msg` where `msg` is `str(e)`; a function that always returns a
string is given the type `String`.  Python truthiness of optional strings
(`if not x` on `None`/`str`) is `truthy`.  JSON dictionary fields accessed
with `.get` are modelled as `Option` fields (a JSON `null` value is
identified with an absent key, which `.get` treats the same way).
-/

set_option linter.unusedVariables false

deriving instance DecidableEq for Except

namespace AIDescriptor

/-- Python truthiness of an optional string: `None` and `""` are falsy. -/
def truthy : Option String → Bool
  | none => false
  | some s => s ≠ ""

/-- Python `str.strip()`: remove leading and trailing whitespace. -/
def pyStrip (s : String) : String :=
  ⟨((s.data.dropWhile Char.isWhitespace).reverse.dropWhile Char.isWhitespace).reverse⟩

/-- Python `str.lower()` restricted to ASCII case mapping. -/
def pyLower (s : String) : String :=
  ⟨s.data.map Char.toLower⟩

/-- Python `a or b` on a fetched optional string field (`None`/`""` falsy). -/
def orElseStr (a : Option String) (b : String) : String :=
  match a with
  | none => b
  | some s => if s = "" then b else s

/-! ### Chat-completion response model (lines 74-78) -/

/-- The `message` object of a completion choice; `content` fetched with
`.get("content")` with default `""`. -/
structure ChatMessage where
  content : Option String
  deriving DecidableEq

/-- One element of the `choices` array; `message` fetched with
`.get("message")` with an empty-dict default. -/
structure ChatChoice where
  message : Option ChatMessage
  deriving DecidableEq

/-- JSON body of the chat-completions response; `choices` fetched with
`.get("choices")` with default `[{}]`. -/
structure ChatBody where
  choices : Option (List ChatChoice)
  deriving DecidableEq

/-- The HTTP response of `requests.post(chat_url, ...)` (line 74). -/
structure ChatResp where
  status_code : Nat
  body : ChatBody
  deriving DecidableEq

/-- Line 78: `result.get("choices", [{}])[0].get("message", {}).get("content", "").strip()`.
An empty `choices` list makes the `[0]` subscript raise `IndexError`
(modelled as `.error "list index out of range"`, its `str`). -/
def extractContent (body : ChatBody) : Except String String :=
  match body.choices with
  | none => .ok (pyStrip "")
  | some [] => .error "list index out of range"
  | some (c :: _) =>
    .ok (pyStrip ((((c.message.getD ⟨none⟩).content).getD "")))

/-! ### Agent API model (lines 102-187) -/

/-- Response of the agent-creation `requests.post` (line 149): status code,
the `id` field of the JSON body, and the raw text used in error messages. -/
structure CreateResp where
  status_code : Nat
  id : Option String
  text : String

/-- Response of one status poll `requests.get` (line 166): status code, the
JSON fields consulted by the loop, and the raw text used in error messages. -/
structure PollResp where
  status_code : Nat
  status : Option String
  error : Option String
  summary : Option String
  result : Option String
  output : Option String
  text : String

/-- The external world seen by one agent run: the creation response and the
response to the `k`-th status poll. -/
structure AgentEnv where
  createResp : CreateResp
  poll : Nat → PollResp

/-- Line 177: `status_data.get("summary") or status_data.get("result") or
status_data.get("output", "")`. -/
def pickResult (r : PollResp) : String :=
  orElseStr r.summary (orElseStr r.result (r.output.getD ""))

/-- Outcome of the poll loop together with ghost instrumentation: the number
of status polls performed and the total units slept inside the loop. -/
structure PollOutcome where
  result : Except String String
  polls : Nat
  slept : Nat
  deriving DecidableEq

/-- The poll loop of lines 165-187, from attempt number `k` with `fuel`
remaining iterations of `while poll_count < max_polls`.  Each iteration
polls once; a non-200 status response raises; `FINISHED` returns the picked
result, stripped; `ERROR`/`EXPIRED`/`FAILED` raise with the error detail;
otherwise the loop sleeps 5 units and continues.  Exhausting the budget
raises the timeout (line 187). -/
def pollLoopFrom (poll : Nat → PollResp) : Nat → Nat → PollOutcome
  | 0, _ => ⟨.error "Agent did not complete within timeout period", 0, 0⟩
  | fuel + 1, k =>
    let r := poll k
    if r.status_code ≠ 200 then
      ⟨.error s!"Failed to get agent status: {r.status_code} - {r.text}", 1, 0⟩
    else if r.status = some "FINISHED" then
      ⟨.ok (pyStrip (pickResult r)), 1, 0⟩
    else if r.status = some "ERROR" ∨ r.status = some "EXPIRED" ∨
        r.status = some "FAILED" then
      let st := r.status.getD ""
      let em := r.error.getD "Unknown error"
      ⟨.error s!"Agent ended with status {st}: {em}", 1, 0⟩
    else
      let rest := pollLoopFrom poll fuel (k + 1)
      ⟨rest.result, rest.polls + 1, rest.slept + 5⟩

/-- `generate_description_with_agent`, instrumented.  Pre-poll failure paths
(missing repository, failed creation, missing agent id) perform no polls;
otherwise the poll loop runs with `max_polls = 60` starting at attempt 0. -/
def generate_description_with_agent_run (repository : Option String)
    (env : AgentEnv) : PollOutcome :=
  if ¬ truthy repository then
    ⟨.error "Repository is required for Cursor Agent API. Please provide a repository URL using -r flag or set CURSOR_REPOSITORY in .env file.", 0, 0⟩
  else if env.createResp.status_code ≠ 200 ∧ env.createResp.status_code ≠ 201 then
    ⟨.error s!"Failed to create agent: {env.createResp.status_code} - {env.createResp.text}", 0, 0⟩
  else if ¬ truthy env.createResp.id then
    ⟨.error "No agent ID returned from API", 0, 0⟩
  else
    pollLoopFrom env.poll 60 0

/-- `generate_description_with_agent` (lines 102-187): returns the generated
string or raises (`.error`).  The prompt materials do not influence the
modelled control flow; they are kept for signature fidelity. -/
def generate_description_with_agent (title description prompt_template api_key : String)
    (api_url : Option String) (repository : Option String) (env : AgentEnv) :
    Except String String :=
  (generate_description_with_agent_run repository env).result

/-! ### `generate_description` (lines 28-99) -/

/-- The external world seen by one call of `generate_description`: the chat
request either raises a `requests.exceptions.RequestException` (with message)
or yields a response, and the agent environment backs the fallback path. -/
structure Env where
  chatResp : Except String ChatResp
  agentEnv : AgentEnv

/-- `generate_description` (lines 28-99).  All exceptions are caught: the
function always returns a string. -/
def generate_description (title description prompt_template api_key : String)
    (api_url : Option String) (repository : Option String) (env : Env) : String :=
  match env.chatResp with
  | .ok resp =>
    if resp.status_code = 200 then
      match extractContent resp.body with
      | .ok s => s
      | .error e => s!"Error generating description: {e}"
    else if resp.status_code = 404 then
      if ¬ truthy repository then
        "Error: Chat completions endpoint not available and repository not provided. Agent API requires a repository. Please provide a repository URL using -r flag or set CURSOR_REPOSITORY in .env file."
      else
        match generate_description_with_agent title description prompt_template
            api_key api_url repository env.agentEnv with
        | .ok s => s
        | .error e => s!"Error generating description: {e}"
    else
      if ¬ truthy repository then
        s!"Error: Chat completions failed (status {resp.status_code}) and repository not provided. Agent API requires a repository. Please provide a repository URL using -r flag or set CURSOR_REPOSITORY in .env file."
      else
        match generate_description_with_agent title description prompt_template
            api_key api_url repository env.agentEnv with
        | .ok s => s
        | .error e => s!"Error generating description: {e}"
  | .error e =>
    if ¬ truthy repository then
      s!"Error: Chat endpoint failed and repository not provided. Agent API requires a repository. Please provide a repository URL using -r flag or set CURSOR_REPOSITORY in .env file. Original error: {e}"
    else
      match generate_description_with_agent title description prompt_template
          api_key api_url repository env.agentEnv with
      | .ok s => s
      | .error agent_error =>
        s!"Error generating description: {e} (Agent API also failed: {agent_error})"

/-! ### `process_file` (lines 190-275) -/

/-- A pandas dataframe, modelled as a rectangular table: column labels and
rows of cells in column order (cells are strings). -/
structure Table where
  cols : List String
  rows : List (List String)
  deriving DecidableEq

/-- `row[c]`: look a cell up by column label (first matching column). -/
def getCell (t : Table) (row : List String) (c : String) : String :=
  match t.cols.indexOf? c with
  | some j => row.getD j ""
  | none => ""

/-- `df[name] = vals` (line 256): overwrite the column if the label exists,
otherwise append it as a new last column. -/
def setColumn (t : Table) (name : String) (vals : List String) : Table :=
  match t.cols.indexOf? name with
  | some j => ⟨t.cols, (t.rows.zip vals).map fun p => p.1.set j p.2⟩
  | none => ⟨t.cols ++ [name], (t.rows.zip vals).map fun p => p.1 ++ [p.2]⟩

/-- A `pathlib.Path`, kept as the components the program uses:
`parent`, `stem` and `suffix` (so the full name is `stem ++ suffix`). -/
structure PathT where
  parent : String
  stem : String
  suffix : String
  deriving DecidableEq

/-- Output format chosen at lines 265-272. -/
inductive OutFormat
  | csv
  | excel
  deriving DecidableEq

/-- What `process_file` writes on success: the path, its format, and the
augmented table. -/
structure WriteOut where
  path : PathT
  format : OutFormat
  table : Table
  deriving DecidableEq

/-- Externally visible effects of a `process_file` run, recorded in order:
reading the input table, one chat/agent API interaction per row, and the
final write. -/
inductive Ev
  | readInput
  | apiCall (i : Nat)
  | wroteOutput
  deriving DecidableEq

/-- The external world and arguments of one `process_file` run.  `envs i`
is the API world seen by the `generate_description` call of row `i`. -/
structure RunArgs where
  input_path : PathT
  output_file : Option PathT
  api_key : Option String
  api_url : Option String
  repository : Option String
  env_api_key : Option String
  env_repository : Option String
  prompt_exists : Bool
  prompt_text : String
  input_exists : Bool
  input_table : Table
  envs : Nat → Env

/-- Lines 205-206: the API key argument, falling back to the environment
variable when absent or empty. -/
def resolvedKeyOpt (a : RunArgs) : Option String :=
  if truthy a.api_key then a.api_key else a.env_api_key

/-- Lines 214-215: the repository argument, falling back to the environment
variable when absent or empty. -/
def resolvedRepo (a : RunArgs) : Option String :=
  if truthy a.repository then a.repository else a.env_repository

/-- The row loop of lines 238-253: one `generate_description` result per
input row, in order. -/
def generateAll (a : RunArgs) (key : String) (repository : Option String) :
    List String :=
  (List.range a.input_table.rows.length).map fun i =>
    let row := a.input_table.rows.getD i []
    generate_description (getCell a.input_table row "title")
      (getCell a.input_table row "description") a.prompt_text key
      a.api_url repository (a.envs i)

/-- Lines 258-272: derive the output path when none was given, then choose
the output format from the output suffix, rewriting an unrecognized suffix
to `.csv`. -/
def resolveOutput (a : RunArgs) : PathT × OutFormat :=
  let output_path :=
    match a.output_file with
    | none => ⟨a.input_path.parent, a.input_path.stem ++ "_generated",
        a.input_path.suffix⟩
    | some p => p
  if pyLower output_path.suffix = ".csv" then (output_path, .csv)
  else if pyLower output_path.suffix = ".xlsx" ∨ pyLower output_path.suffix = ".xls" then
    (output_path, .excel)
  else ({ output_path with suffix := ".csv" }, .csv)

/-- `process_file` (lines 190-275).  Returns the write performed (or the
exception message) together with the trace of external effects.  The
run-aborting messages for a missing prompt file, a missing input file and
missing columns are kept without their interpolated path/list fragments
(no claim depends on those fragments). -/
def process_file (a : RunArgs) : Except String WriteOut × List Ev :=
  if ¬ a.prompt_exists then
    (.error "Prompt file not found", [])
  else
    let api_key := resolvedKeyOpt a
    if ¬ truthy api_key then
      (.error "Cursor API key not provided. Set CURSOR_API_KEY in a .env file, as an environment variable, or pass it using the -k parameter.", [])
    else
      let repository := resolvedRepo a
      if ¬ a.input_exists then
        (.error "Input file not found", [])
      else if ¬ (pyLower a.input_path.suffix = ".csv" ∨
          pyLower a.input_path.suffix = ".xlsx" ∨
          pyLower a.input_path.suffix = ".xls") then
        (.error s!"Unsupported file type: {a.input_path.suffix}. Use .csv, .xlsx, or .xls", [])
      else
        let df := a.input_table
        let missing :=
          ["title", "description"].filter fun c => ! df.cols.contains c
        if missing ≠ [] then
          (.error "Missing required columns", [.readInput])
        else
          let ai := generateAll a (api_key.getD "") repository
          let df2 := setColumn df "AI generated description" ai
          (.ok ⟨(resolveOutput a).1, (resolveOutput a).2, df2⟩,
            .readInput ::
              ((List.range df.rows.length).map Ev.apiCall ++ [.wroteOutput]))

/-! ### Text normalization of the second implementation variant -/

/-- Whether a line contains the delimiter character `|`. -/
def hasPipe (s : String) : Bool :=
  s.data.contains '|'

/-- Modelled from the spec: the Description Generator of the second
implementation variant (spec section 4.3) applies a deterministic text
normalization to the model response; that variant is not present under
`src/`.  Working on the list of lines of the response: if the first line equals
the title exactly, strip it; then, if the first remaining line does not
contain the delimiter `|`, promote the first later line containing `|` to
the front, preserving the relative order of all other lines (if no line
contains `|`, leave the lines as they are). -/
def normalizeLines (title : String) (lines : List String) : List String :=
  let stripped :=
    match lines with
    | l :: rest => if l = title then rest else l :: rest
    | [] => []
  match stripped with
  | [] => []
  | l :: rest =>
    if hasPipe l then l :: rest
    else
      match rest.span fun s => ! hasPipe s with
      | (before, q :: after) => q :: l :: (before ++ after)
      | (_, []) => l :: rest

/-! ### Shared predicates -/

/-- `s` begins with the prefix `p`. -/
def beginsWith (p s : String) : Prop :=
  ∃ t, s = p ++ t

/-- A status poll answered with HTTP 200 and a non-terminal status: the
loop of lines 165-187 sleeps and continues on such a response. -/
@[reducible] def pendingPoll (r : PollResp) : Prop :=
  r.status_code = 200 ∧ r.status ≠ some "FINISHED" ∧ r.status ≠ some "ERROR" ∧
    r.status ≠ some "EXPIRED" ∧ r.status ≠ some "FAILED"

/-- The result of an agent run extracted on `FINISHED` (line 177-178). -/
def finishedResult (r : PollResp) : String :=
  pyStrip (pickResult r)

/-- `toString` on a string is the string itself (used to normalize the
strings built by interpolation). -/
theorem toString_string (s : String) : toString s = s :=
  rfl

/-! ### Poll-loop lemmas -/

/-- A pending response makes one loop iteration poll once, sleep 5 units and
continue with the next attempt. -/
theorem pollLoopFrom_pending_step (poll : Nat → PollResp) (fuel k : Nat)
    (h : pendingPoll (poll k)) :
    pollLoopFrom poll (fuel + 1) k =
      ⟨(pollLoopFrom poll fuel (k + 1)).result,
       (pollLoopFrom poll fuel (k + 1)).polls + 1,
       (pollLoopFrom poll fuel (k + 1)).slept + 5⟩ := by
  obtain ⟨h1, h2, h3, h4, h5⟩ := h
  simp [pollLoopFrom, h1, h2, h3, h4, h5]

/-- Running the loop across `j` pending responses adds `j` polls and `5 * j`
units of sleep to whatever the rest of the loop does. -/
theorem pollLoopFrom_skip (poll : Nat → PollResp) :
    ∀ (j fuel k : Nat), j ≤ fuel →
      (∀ i, i < j → pendingPoll (poll (k + i))) →
      pollLoopFrom poll fuel k =
        ⟨(pollLoopFrom poll (fuel - j) (k + j)).result,
         (pollLoopFrom poll (fuel - j) (k + j)).polls + j,
         (pollLoopFrom poll (fuel - j) (k + j)).slept + 5 * j⟩ := by
  intro j
  induction j with
  | zero =>
    intro fuel k _ _
    simp
  | succ n ih =>
    intro fuel k hle hpend
    obtain ⟨f, rfl⟩ : ∃ f, fuel = f + 1 := ⟨fuel - 1, by omega⟩
    have hpend' : ∀ i, i < n → pendingPoll (poll (k + 1 + i)) := by
      intro i hi
      have h := hpend (i + 1) (by omega)
      have e : k + (i + 1) = k + 1 + i := by omega
      rw [e] at h
      exact h
    rw [pollLoopFrom_pending_step poll f k (by simpa using hpend 0 (by omega)),
      ih f (k + 1) (by omega) hpend']
    have e1 : f + 1 - (n + 1) = f - n := by omega
    have e2 : k + (n + 1) = k + 1 + n := by omega
    rw [e1, e2]
    rcases pollLoopFrom poll (f - n) (k + 1 + n) with ⟨res, pl, sl⟩
    exact congrArg₂ (PollOutcome.mk res)
      (show pl + n + 1 = pl + (n + 1) by omega)
      (show sl + 5 * n + 5 = sl + 5 * (n + 1) by omega)

/-- C3: if every status poll returns HTTP 200 with a status that is never
terminal, the agent run performs exactly 60 poll attempts, sleeps 5 units
after each of them (300 units in total), and then raises the timeout
failure. -/
theorem c3_poll_timeout_exactly_60 (title description prompt_template api_key : String)
    (api_url repository : Option String) (env : AgentEnv)
    (hrep : truthy repository)
    (hcreate : env.createResp.status_code = 200 ∨ env.createResp.status_code = 201)
    (hid : truthy env.createResp.id)
    (hpend : ∀ i, i < 60 → pendingPoll (env.poll i)) :
    generate_description_with_agent_run repository env =
      ⟨.error "Agent did not complete within timeout period", 60, 300⟩ ∧
    generate_description_with_agent title description prompt_template api_key
      api_url repository env = .error "Agent did not complete within timeout period" := by
  have hloop : pollLoopFrom env.poll 60 0 =
      ⟨.error "Agent did not complete within timeout period", 60, 300⟩ := by
    have h := pollLoopFrom_skip env.poll 60 60 0 (le_refl 60)
      (by intro i hi; simpa using hpend i hi)
    rw [h]
    rfl
  have hrun : generate_description_with_agent_run repository env =
      ⟨.error "Agent did not complete within timeout period", 60, 300⟩ := by
    rcases hcreate with hc | hc <;>
      simp [generate_description_with_agent_run, hrep, hid, hc, hloop]
  exact ⟨hrun, by simp [generate_description_with_agent, hrun]⟩

/-- A status poll that stays pending forever. -/
def pendingResp : PollResp :=
  ⟨200, some "RUNNING", none, none, none, none, ""⟩

/-- An agent environment whose job is created successfully and never leaves
the pending state. -/
def envTimeout : AgentEnv :=
  ⟨⟨200, some "agent-1", ""⟩, fun _ => pendingResp⟩

/-- Witness for C3 at a concrete environment. -/
theorem c3_witness :
    generate_description_with_agent_run (some "github.com/x/y") envTimeout =
      ⟨.error "Agent did not complete within timeout period", 60, 300⟩ ∧
    generate_description_with_agent "t" "d" "p" "k" none (some "github.com/x/y")
      envTimeout = .error "Agent did not complete within timeout period" := by
  refine c3_poll_timeout_exactly_60 "t" "d" "p" "k" none (some "github.com/x/y")
    envTimeout (by decide) (Or.inl rfl) (by decide) ?_
  intro i _
  refine ⟨rfl, ?_, ?_, ?_, ?_⟩ <;> simp [envTimeout, pendingResp]

/-- A non-200 status response raises on the spot: one poll, no sleep. -/
theorem pollLoopFrom_non200_step (poll : Nat → PollResp) (fuel k : Nat)
    (h : (poll k).status_code ≠ 200) :
    pollLoopFrom poll (fuel + 1) k =
      ⟨.error s!"Failed to get agent status: {(poll k).status_code} - {(poll k).text}",
       1, 0⟩ := by
  simp [pollLoopFrom, h]

/-- A 200 response with a terminal-failure status raises with the reported
error detail: one poll, no sleep. -/
theorem pollLoopFrom_failure_step (poll : Nat → PollResp) (fuel k : Nat)
    (s em : String) (h200 : (poll k).status_code = 200)
    (hs : (poll k).status = some s)
    (hfail : s = "ERROR" ∨ s = "EXPIRED" ∨ s = "FAILED")
    (he : (poll k).error = some em) :
    pollLoopFrom poll (fuel + 1) k =
      ⟨.error s!"Agent ended with status {s}: {em}", 1, 0⟩ := by
  rcases hfail with rfl | rfl | rfl <;> simp [pollLoopFrom, h200, hs, he]

/-- Normal form of the terminal-failure message. -/
theorem agentFailMsg_eq (s em : String) :
    (s!"Agent ended with status {s}: {em}" : String) =
      "Agent ended with status " ++ s ++ ": " ++ em := by
  simp only [toString_string, String.append_empty]

/-- Normal form of the caught-exception message of `generate_description`. -/
theorem errGenMsg_eq (e : String) :
    (s!"Error generating description: {e}" : String) =
      "Error generating description: " ++ e := by
  simp only [toString_string, String.append_empty]

/-- The caught-exception message begins with `"Error"`. -/
theorem beginsWith_error_errGen (e : String) :
    beginsWith "Error" ("Error generating description: " ++ e) := by
  refine ⟨" generating description: " ++ e, ?_⟩
  rw [← String.append_assoc]
  rfl

/-- C10: during agent-job polling, a single non-200 status response makes
`generate_description_with_agent` raise at once: the failing poll is the
last one (`j + 1` polls in total, after `5 * j` units of sleep), with no
retry even though the 60-attempt budget is not exhausted. -/
theorem c10_non200_poll_aborts (title description prompt_template api_key : String)
    (api_url repository : Option String) (env : AgentEnv) (j : Nat)
    (hrep : truthy repository)
    (hcreate : env.createResp.status_code = 200 ∨ env.createResp.status_code = 201)
    (hid : truthy env.createResp.id)
    (hj : j < 60)
    (hpend : ∀ i, i < j → pendingPoll (env.poll i))
    (hbad : (env.poll j).status_code ≠ 200) :
    generate_description_with_agent_run repository env =
      ⟨.error s!"Failed to get agent status: {(env.poll j).status_code} - {(env.poll j).text}",
       j + 1, 5 * j⟩ ∧
    generate_description_with_agent title description prompt_template api_key
      api_url repository env =
      .error s!"Failed to get agent status: {(env.poll j).status_code} - {(env.poll j).text}" := by
  have hskip := pollLoopFrom_skip env.poll j 60 0 (by omega)
    (by intro i hi; simpa using hpend i hi)
  obtain ⟨m, hm⟩ : ∃ m, 60 - j = m + 1 := ⟨60 - j - 1, by omega⟩
  have h0j : (0 : Nat) + j = j := by omega
  rw [hm, h0j, pollLoopFrom_non200_step env.poll m j hbad] at hskip
  have hloop : pollLoopFrom env.poll 60 0 =
      ⟨.error s!"Failed to get agent status: {(env.poll j).status_code} - {(env.poll j).text}",
       j + 1, 5 * j⟩ := by
    rw [hskip]
    exact congrArg₂ (PollOutcome.mk _)
      (show 1 + j = j + 1 by omega) (show 0 + 5 * j = 5 * j by omega)
  have hrun : generate_description_with_agent_run repository env =
      ⟨.error s!"Failed to get agent status: {(env.poll j).status_code} - {(env.poll j).text}",
       j + 1, 5 * j⟩ := by
    rcases hcreate with hc | hc <;>
      simp [generate_description_with_agent_run, hrep, hid, hc, hloop]
  exact ⟨hrun, by simp [generate_description_with_agent, hrun]⟩

/-- An agent environment whose second status poll comes back HTTP 500. -/
def envNon200 : AgentEnv :=
  ⟨⟨201, some "agent-2", ""⟩,
   fun k => if k = 0 then pendingResp else ⟨500, none, none, none, none, none, "boom"⟩⟩

/-- Witness for C10 at a concrete environment: the loop stops after the
second poll (2 of the 60 allowed attempts). -/
theorem c10_witness :
    generate_description_with_agent_run (some "github.com/x/z") envNon200 =
      ⟨.error "Failed to get agent status: 500 - boom", 2, 5⟩ ∧
    generate_description_with_agent "t" "d" "p" "k" none (some "github.com/x/z")
      envNon200 = .error "Failed to get agent status: 500 - boom" := by
  have h := c10_non200_poll_aborts "t" "d" "p" "k" none (some "github.com/x/z")
    envNon200 1 (by decide) (Or.inr rfl) (by decide) (by omega)
    (by
      intro i hi
      have hz : i = 0 := by omega
      subst hz
      refine ⟨rfl, ?_, ?_, ?_, ?_⟩ <;> simp [envNon200, pendingResp])
    (by decide)
  exact ⟨by rw [h.1]; rfl, by rw [h.2]; rfl⟩

/-- C4: a poll answering a status in `{ERROR, EXPIRED, FAILED}` makes
`generate_description_with_agent` raise an exception carrying the reported
error detail, and inside the `generate_description` call of a row (here entered via
the 404 fallback) that exception is caught and stored as a string beginning
with `"Error"`. -/
theorem c4_terminal_failure_detail (title description prompt_template api_key : String)
    (api_url repository : Option String) (env : Env) (resp : ChatResp)
    (j : Nat) (s em : String)
    (hresp : env.chatResp = .ok resp)
    (h404 : resp.status_code = 404)
    (hrep : truthy repository)
    (hcreate : env.agentEnv.createResp.status_code = 200 ∨
      env.agentEnv.createResp.status_code = 201)
    (hid : truthy env.agentEnv.createResp.id)
    (hj : j < 60)
    (hpend : ∀ i, i < j → pendingPoll (env.agentEnv.poll i))
    (h200 : (env.agentEnv.poll j).status_code = 200)
    (hs : (env.agentEnv.poll j).status = some s)
    (hfail : s = "ERROR" ∨ s = "EXPIRED" ∨ s = "FAILED")
    (he : (env.agentEnv.poll j).error = some em) :
    generate_description_with_agent title description prompt_template api_key
      api_url repository env.agentEnv =
      .error ("Agent ended with status " ++ s ++ ": " ++ em) ∧
    generate_description title description prompt_template api_key api_url
      repository env =
      "Error generating description: " ++ ("Agent ended with status " ++ s ++ ": " ++ em) ∧
    beginsWith "Error" (generate_description title description prompt_template
      api_key api_url repository env) := by
  have hskip := pollLoopFrom_skip env.agentEnv.poll j 60 0 (by omega)
    (by intro i hi; simpa using hpend i hi)
  obtain ⟨m, hm⟩ : ∃ m, 60 - j = m + 1 := ⟨60 - j - 1, by omega⟩
  have h0j : (0 : Nat) + j = j := by omega
  rw [hm, h0j,
    pollLoopFrom_failure_step env.agentEnv.poll m j s em h200 hs hfail he] at hskip
  have hloop : pollLoopFrom env.agentEnv.poll 60 0 =
      ⟨.error ("Agent ended with status " ++ s ++ ": " ++ em), j + 1, 5 * j⟩ := by
    rw [hskip, agentFailMsg_eq]
    exact congrArg₂ (PollOutcome.mk _)
      (show 1 + j = j + 1 by omega) (show 0 + 5 * j = 5 * j by omega)
  have hrun : generate_description_with_agent_run repository env.agentEnv =
      ⟨.error ("Agent ended with status " ++ s ++ ": " ++ em), j + 1, 5 * j⟩ := by
    rcases hcreate with hc | hc <;>
      simp [generate_description_with_agent_run, hrep, hid, hc, hloop]
  have hgdwa : generate_description_with_agent title description prompt_template
      api_key api_url repository env.agentEnv =
      .error ("Agent ended with status " ++ s ++ ": " ++ em) := by
    simp [generate_description_with_agent, hrun]
  have hgd : generate_description title description prompt_template api_key
      api_url repository env =
      "Error generating description: " ++ ("Agent ended with status " ++ s ++ ": " ++ em) := by
    simp [generate_description, hresp, h404, hrep, hgdwa, errGenMsg_eq]
  exact ⟨hgdwa, hgd, by rw [hgd]; exact beginsWith_error_errGen _⟩

/-- An agent environment whose job is created and immediately `FAILED`. -/
def envFailed : AgentEnv :=
  ⟨⟨200, some "agent-3", ""⟩,
   fun _ => ⟨200, some "FAILED", some "quota exceeded", none, none, none, ""⟩⟩

/-- A world where the chat endpoint answers 404 and the agent job fails. -/
def envC4 : Env :=
  ⟨.ok ⟨404, ⟨none⟩⟩, envFailed⟩

/-- Witness for C4 at a concrete environment. -/
theorem c4_witness :
    generate_description_with_agent "t" "d" "p" "k" none (some "github.com/x/w")
      envC4.agentEnv = .error "Agent ended with status FAILED: quota exceeded" ∧
    generate_description "t" "d" "p" "k" none (some "github.com/x/w") envC4 =
      "Error generating description: Agent ended with status FAILED: quota exceeded" := by
  have h := c4_terminal_failure_detail "t" "d" "p" "k" none (some "github.com/x/w")
    envC4 ⟨404, ⟨none⟩⟩ 0 "FAILED" "quota exceeded" rfl rfl (by decide)
    (Or.inl rfl) (by decide) (by omega) (by intro i hi; omega) rfl rfl
    (Or.inr (Or.inr rfl)) rfl
  exact ⟨by rw [h.1]; rfl, by rw [h.2.1]; rfl⟩

/-- The 404-without-repository message begins with `"Error"`. -/
theorem beginsWith_error_noRepo404 :
    beginsWith "Error" "Error: Chat completions endpoint not available and repository not provided. Agent API requires a repository. Please provide a repository URL using -r flag or set CURSOR_REPOSITORY in .env file." :=
  ⟨": Chat completions endpoint not available and repository not provided. Agent API requires a repository. Please provide a repository URL using -r flag or set CURSOR_REPOSITORY in .env file.", by rfl⟩

/-- The non-200-without-repository message begins with `"Error"`. -/
theorem beginsWith_error_statusMsg (c : Nat) :
    beginsWith "Error" s!"Error: Chat completions failed (status {c}) and repository not provided. Agent API requires a repository. Please provide a repository URL using -r flag or set CURSOR_REPOSITORY in .env file." := by
  refine ⟨": Chat completions failed (status " ++ toString c ++ ") and repository not provided. Agent API requires a repository. Please provide a repository URL using -r flag or set CURSOR_REPOSITORY in .env file.", ?_⟩
  simp only [toString_string, String.append_empty, ← String.append_assoc]
  rfl

/-- The transport-failure-without-repository message begins with `"Error"`. -/
theorem beginsWith_error_transportMsg (e : String) :
    beginsWith "Error" s!"Error: Chat endpoint failed and repository not provided. Agent API requires a repository. Please provide a repository URL using -r flag or set CURSOR_REPOSITORY in .env file. Original error: {e}" := by
  refine ⟨": Chat endpoint failed and repository not provided. Agent API requires a repository. Please provide a repository URL using -r flag or set CURSOR_REPOSITORY in .env file. Original error: " ++ e, ?_⟩
  simp only [toString_string, String.append_empty, ← String.append_assoc]
  rfl

/-- The both-APIs-failed message begins with `"Error"`. -/
theorem beginsWith_error_bothFailedMsg (e ae : String) :
    beginsWith "Error" s!"Error generating description: {e} (Agent API also failed: {ae})" := by
  refine ⟨" generating description: " ++ e ++ " (Agent API also failed: " ++ ae ++ ")", ?_⟩
  simp only [toString_string, String.append_empty, ← String.append_assoc]
  rfl

/-- C1: `generate_description` never raises: it is a total function into
strings, and on every path its value is either real content (the extracted
chat completion on HTTP 200, or a successful agent fallback result) or a
string beginning with `"Error"`. -/
theorem c1_never_raises_error_or_content (title description prompt_template api_key : String)
    (api_url repository : Option String) (env : Env) :
    beginsWith "Error" (generate_description title description prompt_template
      api_key api_url repository env) ∨
    (∃ resp, env.chatResp = .ok resp ∧ resp.status_code = 200 ∧
      extractContent resp.body = .ok (generate_description title description
        prompt_template api_key api_url repository env)) ∨
    generate_description_with_agent title description prompt_template api_key
      api_url repository env.agentEnv =
      .ok (generate_description title description prompt_template api_key
        api_url repository env) := by
  cases hchat : env.chatResp with
  | ok resp =>
    by_cases h200 : resp.status_code = 200
    · cases hex : extractContent resp.body with
      | ok s =>
        right; left
        exact ⟨resp, rfl, h200, by simp [generate_description, hchat, h200, hex]⟩
      | error e =>
        left
        have hg : generate_description title description prompt_template api_key
            api_url repository env = s!"Error generating description: {e}" := by
          simp [generate_description, hchat, h200, hex]
        rw [hg, errGenMsg_eq]
        exact beginsWith_error_errGen e
    · by_cases hrep : truthy repository
      · cases hgdwa : generate_description_with_agent title description
            prompt_template api_key api_url repository env.agentEnv with
        | ok s =>
          right; right
          by_cases h404 : resp.status_code = 404 <;>
            simp [generate_description, hchat, h200, h404, hrep, hgdwa]
        | error e =>
          left
          have hg : generate_description title description prompt_template api_key
              api_url repository env = s!"Error generating description: {e}" := by
            by_cases h404 : resp.status_code = 404 <;>
              simp [generate_description, hchat, h200, h404, hrep, hgdwa]
          rw [hg, errGenMsg_eq]
          exact beginsWith_error_errGen e
      · by_cases h404 : resp.status_code = 404
        · left
          have hg : generate_description title description prompt_template api_key
              api_url repository env = "Error: Chat completions endpoint not available and repository not provided. Agent API requires a repository. Please provide a repository URL using -r flag or set CURSOR_REPOSITORY in .env file." := by
            simp [generate_description, hchat, h200, h404, hrep]
          rw [hg]
          exact beginsWith_error_noRepo404
        · left
          have hg : generate_description title description prompt_template api_key
              api_url repository env = s!"Error: Chat completions failed (status {resp.status_code}) and repository not provided. Agent API requires a repository. Please provide a repository URL using -r flag or set CURSOR_REPOSITORY in .env file." := by
            simp [generate_description, hchat, h200, h404, hrep]
          rw [hg]
          exact beginsWith_error_statusMsg resp.status_code
  | error e =>
    by_cases hrep : truthy repository
    · cases hgdwa : generate_description_with_agent title description
          prompt_template api_key api_url repository env.agentEnv with
      | ok s =>
        right; right
        simp [generate_description, hchat, hrep, hgdwa]
      | error ae =>
        left
        have hg : generate_description title description prompt_template api_key
            api_url repository env =
            s!"Error generating description: {e} (Agent API also failed: {ae})" := by
          simp [generate_description, hchat, hrep, hgdwa]
        rw [hg]
        exact beginsWith_error_bothFailedMsg e ae
    · left
      have hg : generate_description title description prompt_template api_key
          api_url repository env = s!"Error: Chat endpoint failed and repository not provided. Agent API requires a repository. Please provide a repository URL using -r flag or set CURSOR_REPOSITORY in .env file. Original error: {e}" := by
        simp [generate_description, hchat, hrep]
      rw [hg]
      exact beginsWith_error_transportMsg e

/-! ### List and table lemmas -/

/-- `indexOf?` of an element appended to a list not containing it. -/
theorem indexOf?_append_self (l : List String) (a : String)
    (h : l.indexOf? a = none) : (l ++ [a]).indexOf? a = some l.length := by
  induction l with
  | nil => simp [List.indexOf?_cons]
  | cons x xs ih =>
    rw [List.indexOf?_cons] at h
    by_cases hx : (x == a) = true
    · rw [if_pos hx] at h
      exact absurd h (by simp)
    · rw [if_neg hx] at h
      rw [List.cons_append, List.indexOf?_cons, if_neg hx]
      rw [ih (by simpa using h)]
      rfl

/-- A found index is within bounds. -/
theorem indexOf?_some_lt {α : Type} [BEq α] (l : List α) (a : α) (j : Nat)
    (h : l.indexOf? a = some j) : j < l.length := by
  induction l generalizing j with
  | nil => simp [List.indexOf?_nil] at h
  | cons x xs ih =>
    rw [List.indexOf?_cons] at h
    by_cases hx : (x == a) = true
    · rw [if_pos hx] at h
      obtain rfl : j = 0 := by simpa using h.symm
      simp
    · rw [if_neg hx] at h
      obtain ⟨j', hj', rfl⟩ := Option.map_eq_some.mp h
      have := ih j' hj'
      simp only [List.length_cons]
      omega

/-- `getD` of the appended last element. -/
theorem getD_append_self (r : List String) (v d : String) :
    (r ++ [v]).getD r.length d = v := by
  induction r with
  | nil => rfl
  | cons x xs ih => simpa using ih

/-- `getD` below the length of the left part of an append. -/
theorem getD_append_lt (r s : List String) (j : Nat) (hj : j < r.length)
    (d : String) : (r ++ s).getD j d = r.getD j d := by
  induction r generalizing j with
  | nil => simp at hj
  | cons x xs ih =>
    cases j with
    | zero => rfl
    | succ j' =>
      simp only [List.cons_append, List.getD_cons_succ]
      exact ih j' (by simp only [List.length_cons] at hj; omega)

/-- `getD` at a position just overwritten by `set`. -/
theorem getD_set_self (r : List String) (j : Nat) (v d : String)
    (hj : j < r.length) : (r.set j v).getD j d = v := by
  induction r generalizing j with
  | nil => simp at hj
  | cons x xs ih =>
    cases j with
    | zero => rfl
    | succ j' =>
      simp only [List.set_cons_succ, List.getD_cons_succ]
      exact ih j' (by simpa using hj)

/-- The `i`-th element of a zipped-and-mapped row list. -/
theorem zip_map_getD (f : List String × String → List String)
    (rs : List (List String)) (vs : List String) (i : Nat)
    (hl : vs.length = rs.length) (hi : i < rs.length) :
    ((rs.zip vs).map f).getD i [] = f (rs.getD i [], vs.getD i "") := by
  induction rs generalizing vs i with
  | nil => simp at hi
  | cons r rs ih =>
    cases vs with
    | nil => simp at hl
    | cons v vs =>
      cases i with
      | zero => rfl
      | succ i' =>
        simp only [List.zip_cons_cons, List.map_cons, List.getD_cons_succ]
        exact ih vs i' (by simpa using hl) (by simpa using hi)

/-- `generateAll` produces one value per input row. -/
theorem generateAll_length (a : RunArgs) (key : String) (rep : Option String) :
    (generateAll a key rep).length = a.input_table.rows.length := by
  simp [generateAll]

/-- The `i`-th value of `generateAll` is the generator applied to the
`i`-th row. -/
theorem generateAll_getD (a : RunArgs) (key : String) (rep : Option String)
    (i : Nat) (hi : i < a.input_table.rows.length) :
    (generateAll a key rep).getD i "" =
      generate_description
        (getCell a.input_table (a.input_table.rows.getD i []) "title")
        (getCell a.input_table (a.input_table.rows.getD i []) "description")
        a.prompt_text key a.api_url rep (a.envs i) := by
  have hlt : i < (List.range a.input_table.rows.length).length := by simpa using hi
  rw [generateAll, List.getD_eq_getElem?_getD, List.getElem?_map,
    List.getElem?_range hi]
  rfl

/-- `setColumn` preserves the number of rows when given one value per row. -/
theorem setColumn_rows_length (t : Table) (nm : String) (vals : List String)
    (h : vals.length = t.rows.length) :
    (setColumn t nm vals).rows.length = t.rows.length := by
  cases hidx : t.cols.indexOf? nm <;> simp [setColumn, hidx, h]

/-- Looking the written column up in a row of `setColumn` yields the value
supplied for that row. -/
theorem setColumn_cell (t : Table) (nm : String) (vals : List String)
    (hrect : ∀ r ∈ t.rows, r.length = t.cols.length)
    (hlen : vals.length = t.rows.length) (i : Nat) (hi : i < t.rows.length) :
    getCell (setColumn t nm vals)
      ((setColumn t nm vals).rows.getD i []) nm = vals.getD i "" := by
  have hrl : (t.rows.getD i []).length = t.cols.length := by
    refine hrect _ ?_
    rw [List.getD_eq_getElem _ _ (by simpa using hi)]
    exact List.getElem_mem _
  cases hidx : t.cols.indexOf? nm with
  | none =>
    have hfound : (t.cols ++ [nm]).indexOf? nm = some t.cols.length :=
      indexOf?_append_self t.cols nm hidx
    simp only [setColumn, hidx]
    rw [getCell]
    simp only [hfound]
    rw [zip_map_getD _ t.rows vals i hlen hi]
    show ((t.rows.getD i []) ++ [vals.getD i ""]).getD t.cols.length "" = vals.getD i ""
    rw [← hrl, getD_append_self]
  | some j =>
    have hj : j < t.cols.length := indexOf?_some_lt t.cols nm j hidx
    simp only [setColumn, hidx]
    rw [getCell]
    simp only [hidx]
    rw [zip_map_getD _ t.rows vals i hlen hi]
    show ((t.rows.getD i []).set j (vals.getD i "")).getD j "" = vals.getD i ""
    exact getD_set_self _ j _ "" (by omega)

/-- Inversion of a successful `process_file` run: all guards passed and the
write is the augmented table at the resolved output path. -/
theorem process_file_ok_inv (a : RunArgs) (w : WriteOut) (evs : List Ev)
    (h : process_file a = (.ok w, evs)) :
    a.prompt_exists = true ∧ truthy (resolvedKeyOpt a) = true ∧
    a.input_exists = true ∧
    (pyLower a.input_path.suffix = ".csv" ∨ pyLower a.input_path.suffix = ".xlsx" ∨
      pyLower a.input_path.suffix = ".xls") ∧
    "title" ∈ a.input_table.cols ∧ "description" ∈ a.input_table.cols ∧
    w = ⟨(resolveOutput a).1, (resolveOutput a).2,
      setColumn a.input_table "AI generated description"
        (generateAll a ((resolvedKeyOpt a).getD "") (resolvedRepo a))⟩ := by
  have hp : a.prompt_exists = true := by
    by_contra hq
    simp [process_file, hq] at h
  have hk : truthy (resolvedKeyOpt a) = true := by
    by_contra hq
    simp [process_file, hp, hq] at h
  have hex : a.input_exists = true := by
    by_contra hq
    simp [process_file, hp, hk, hq] at h
  have hsuf : pyLower a.input_path.suffix = ".csv" ∨
      pyLower a.input_path.suffix = ".xlsx" ∨ pyLower a.input_path.suffix = ".xls" := by
    by_contra hq
    simp [process_file, hp, hk, hex, hq] at h
  have hcols : "title" ∈ a.input_table.cols ∧ "description" ∈ a.input_table.cols := by
    by_contra hq
    rw [not_and_or] at hq
    rcases hsuf with h1 | h1 | h1 <;> rcases hq with hq | hq <;>
      simp [process_file, hp, hk, hex, h1, hq] at h
  refine ⟨hp, hk, hex, hsuf, hcols.1, hcols.2, ?_⟩
  rcases hsuf with h1 | h1 | h1 <;>
  · simp [process_file, hp, hk, hex, h1, hcols.1, hcols.2] at h
    exact h.1.symm

/-- C5: when no API key is given and none is in the environment,
`process_file` raises before any external effect: the effect trace is empty
(no input read, no API call, no write). -/
theorem c5_missing_key_aborts (a : RunArgs)
    (h1 : truthy a.api_key = false) (h2 : truthy a.env_api_key = false) :
    (∃ msg, (process_file a).1 = .error msg) ∧ (process_file a).2 = [] := by
  have hk : truthy (resolvedKeyOpt a) = false := by
    simp [resolvedKeyOpt, h1, h2]
  by_cases hp : a.prompt_exists
  · exact ⟨⟨"Cursor API key not provided. Set CURSOR_API_KEY in a .env file, as an environment variable, or pass it using the -k parameter.",
      by simp [process_file, hp, hk]⟩, by simp [process_file, hp, hk]⟩
  · exact ⟨⟨"Prompt file not found", by simp [process_file, hp]⟩,
      by simp [process_file, hp]⟩

/-- An agent environment that always fails; the claims that use it never
reach the agent path. -/
def dummyAgentEnv : AgentEnv :=
  ⟨⟨500, none, ""⟩, fun _ => ⟨500, none, none, none, none, none, ""⟩⟩

/-- A chat world answering HTTP 200 with one completion choice. -/
def envOk : Env :=
  ⟨.ok ⟨200, ⟨some [⟨some ⟨some "  Hosts: X | Classification: Y  "⟩⟩]⟩⟩, dummyAgentEnv⟩

/-- A well-formed two-column input table with one row. -/
def sampleTable : Table :=
  ⟨["title", "description"], [["T1", "D1"]]⟩

/-- A run with no API key argument and none in the environment. -/
def argsNoKey : RunArgs :=
  ⟨⟨"data", "controls", ".csv"⟩, none, none, none, none, none, none,
   true, "PT", true, sampleTable, fun _ => envOk⟩

/-- Witness for C5 at a concrete run. -/
theorem c5_witness :
    (∃ msg, (process_file argsNoKey).1 = .error msg) ∧
    (process_file argsNoKey).2 = [] :=
  c5_missing_key_aborts argsNoKey rfl rfl

/-- C2: a successful `process_file` run yields an output table with exactly
as many rows as the input, and the `i`-th output row carries exactly the
value of the generator for the `i`-th input row (so a row-level failure string
occupies its row instead of aborting the batch). -/
theorem c2_row_count_and_values (a : RunArgs) (w : WriteOut) (evs : List Ev)
    (hrect : ∀ r ∈ a.input_table.rows, r.length = a.input_table.cols.length)
    (h : process_file a = (.ok w, evs)) :
    w.table.rows.length = a.input_table.rows.length ∧
    ∀ i, i < a.input_table.rows.length →
      getCell w.table (w.table.rows.getD i []) "AI generated description" =
        generate_description
          (getCell a.input_table (a.input_table.rows.getD i []) "title")
          (getCell a.input_table (a.input_table.rows.getD i []) "description")
          a.prompt_text ((resolvedKeyOpt a).getD "") a.api_url (resolvedRepo a)
          (a.envs i) := by
  obtain ⟨-, -, -, -, -, -, hw⟩ := process_file_ok_inv a w evs h
  subst hw
  constructor
  · exact setColumn_rows_length _ _ _ (generateAll_length a _ _)
  · intro i hi
    rw [setColumn_cell a.input_table "AI generated description" _ hrect
      (generateAll_length a _ _) i hi]
    exact generateAll_getD a _ _ i hi

/-- A run with an API key argument over the one-row sample table. -/
def argsOk : RunArgs :=
  ⟨⟨"data", "controls", ".csv"⟩, none, some "KEY", none, none, none, none,
   true, "PT", true, sampleTable, fun _ => envOk⟩

/-- Witness for C2 at a concrete run. -/
theorem c2_witness :
    ∃ w evs, process_file argsOk = (.ok w, evs) ∧
      (w.table.rows.length = argsOk.input_table.rows.length ∧
       ∀ i, i < argsOk.input_table.rows.length →
         getCell w.table (w.table.rows.getD i []) "AI generated description" =
           generate_description
             (getCell argsOk.input_table (argsOk.input_table.rows.getD i []) "title")
             (getCell argsOk.input_table (argsOk.input_table.rows.getD i []) "description")
             argsOk.prompt_text ((resolvedKeyOpt argsOk).getD "") argsOk.api_url
             (resolvedRepo argsOk) (argsOk.envs i)) := by
  refine ⟨_, _, rfl, c2_row_count_and_values argsOk _ _ ?_ rfl⟩
  intro r hr
  simp only [argsOk, sampleTable] at hr ⊢
  simp at hr
  subst hr
  rfl

/-- C8: on a successful run, an omitted output path is derived by inserting
`_generated` before the input extension, the output format follows the
output suffix (`.csv` comma-separated, `.xlsx`/`.xls` spreadsheet), and an
unrecognized output suffix falls back to comma-separated (the code then also
rewrites the suffix to `.csv`). -/
theorem c8_output_path_and_format (a : RunArgs) (w : WriteOut) (evs : List Ev)
    (h : process_file a = (.ok w, evs)) :
    (a.output_file = none →
      w.path = ⟨a.input_path.parent, a.input_path.stem ++ "_generated",
        a.input_path.suffix⟩) ∧
    (∀ p, a.output_file = some p →
      (pyLower p.suffix = ".csv" → w.path = p ∧ w.format = .csv) ∧
      ((pyLower p.suffix = ".xlsx" ∨ pyLower p.suffix = ".xls") →
        w.path = p ∧ w.format = .excel) ∧
      (pyLower p.suffix ≠ ".csv" → pyLower p.suffix ≠ ".xlsx" →
        pyLower p.suffix ≠ ".xls" →
        w.format = .csv ∧ w.path = ⟨p.parent, p.stem, ".csv"⟩)) := by
  obtain ⟨-, -, -, hsuf, -, -, hw⟩ := process_file_ok_inv a w evs h
  subst hw
  constructor
  · intro hnone
    rcases hsuf with h1 | h1 | h1 <;> simp [resolveOutput, hnone, h1]
  · intro p hp
    refine ⟨?_, ?_, ?_⟩
    · intro hcsv
      constructor <;> simp [resolveOutput, hp, hcsv]
    · rintro (hx | hx) <;> constructor <;> simp [resolveOutput, hp, hx]
    · intro n1 n2 n3
      constructor <;> simp [resolveOutput, hp, n1, n2, n3]

/-- A run writing to an explicit output path with an unrecognized suffix. -/
def argsTxtOut : RunArgs :=
  ⟨⟨"data", "controls", ".csv"⟩, some ⟨"out", "res", ".txt"⟩, some "KEY", none,
   none, none, none, true, "PT", true, sampleTable, fun _ => envOk⟩

/-- Witness for C8 at a concrete run: the `.txt` output suffix falls back to
comma-separated and is rewritten to `.csv`. -/
theorem c8_witness :
    ∃ w evs, process_file argsTxtOut = (.ok w, evs) ∧ w.format = .csv ∧
      w.path = ⟨"out", "res", ".csv"⟩ := by
  refine ⟨_, _, rfl, ?_⟩
  have h := (c8_output_path_and_format argsTxtOut _ _ rfl).2 ⟨"out", "res", ".txt"⟩
    rfl
  exact h.2.2 (by decide) (by decide) (by decide)

/-- C9 (amended): when the input table does not already contain a column
labelled `AI generated description`, a successful run preserves every
original column label and every original cell value; the only change is the
appended new column. -/
theorem c9_frame_preservation (a : RunArgs) (w : WriteOut) (evs : List Ev)
    (hrect : ∀ r ∈ a.input_table.rows, r.length = a.input_table.cols.length)
    (hnew : "AI generated description" ∉ a.input_table.cols)
    (h : process_file a = (.ok w, evs)) :
    w.table.cols = a.input_table.cols ++ ["AI generated description"] ∧
    w.table.rows.length = a.input_table.rows.length ∧
    ∀ i, i < a.input_table.rows.length → ∀ j, j < a.input_table.cols.length →
      (w.table.rows.getD i []).getD j "" =
        (a.input_table.rows.getD i []).getD j "" := by
  obtain ⟨-, -, -, -, -, -, hw⟩ := process_file_ok_inv a w evs h
  subst hw
  have hidx : a.input_table.cols.indexOf? "AI generated description" = none := by
    rw [List.indexOf?_eq_none_iff]
    intro x hx
    simp only [beq_iff_eq]
    intro hxa
    exact hnew (hxa ▸ hx)
  refine ⟨by simp [setColumn, hidx], ?_, ?_⟩
  · exact setColumn_rows_length _ _ _ (generateAll_length a _ _)
  · intro i hi j hj
    have hrl : (a.input_table.rows.getD i []).length = a.input_table.cols.length := by
      refine hrect _ ?_
      rw [List.getD_eq_getElem _ _ (by simpa using hi)]
      exact List.getElem_mem _
    show ((setColumn a.input_table "AI generated description"
      (generateAll a ((resolvedKeyOpt a).getD "") (resolvedRepo a))).rows.getD i []).getD j ""
      = (a.input_table.rows.getD i []).getD j ""
    simp only [setColumn, hidx]
    rw [zip_map_getD _ a.input_table.rows _ i (generateAll_length a _ _) hi]
    show ((a.input_table.rows.getD i []) ++
      [(generateAll a ((resolvedKeyOpt a).getD "") (resolvedRepo a)).getD i ""]).getD j "" = _
    exact getD_append_lt _ _ j (by omega) ""

/-- Witness for C9 (amended) at a concrete run over a table without the
output column. -/
theorem c9_witness :
    ∃ w evs, process_file argsOk = (.ok w, evs) ∧
      w.table.cols = argsOk.input_table.cols ++ ["AI generated description"] ∧
      w.table.rows.length = argsOk.input_table.rows.length ∧
      ∀ i, i < argsOk.input_table.rows.length →
        ∀ j, j < argsOk.input_table.cols.length →
          (w.table.rows.getD i []).getD j "" =
            (argsOk.input_table.rows.getD i []).getD j "" := by
  refine ⟨_, _, rfl, c9_frame_preservation argsOk _ _ ?_ (by decide) rfl⟩
  intro r hr
  simp only [argsOk, sampleTable] at hr ⊢
  simp at hr
  subst hr
  rfl

/-- A one-row table that already carries an `AI generated description`
column. -/
def tableWithAICol : Table :=
  ⟨["title", "description", "AI generated description"], [["T1", "D1", "orig"]]⟩

/-- A run whose input table already has the output column. -/
def argsOverwrite : RunArgs :=
  ⟨⟨"data", "c", ".csv"⟩, none, some "KEY", none, none, none, none,
   true, "PT", true, tableWithAICol, fun _ => envOk⟩

/-- Counterexample to C9 as stated: on an input table already containing an
`AI generated description` column, `process_file` overwrites the cells of that
column instead of leaving every original cell unchanged and adding a column. -/
theorem c9_counterexample :
    (process_file argsOverwrite).1 =
      .ok ⟨⟨"data", "c_generated", ".csv"⟩, .csv,
        ⟨["title", "description", "AI generated description"],
         [["T1", "D1", "Hosts: X | Classification: Y"]]⟩⟩ ∧
    argsOverwrite.input_table.rows = [["T1", "D1", "orig"]] ∧
    ("Hosts: X | Classification: Y" : String) ≠ "orig" := by
  refine ⟨by decide, rfl, by decide⟩

/-- A chat world answering HTTP 200 with a present but empty choices list. -/
def envEmptyChoices : Env :=
  ⟨.ok ⟨200, ⟨some []⟩⟩, dummyAgentEnv⟩

/-- Counterexample to C6 as stated: on HTTP 200 with an empty `choices`
array the first choice is absent from the response body, yet the function
returns the caught `IndexError` string rather than the empty string. -/
theorem c6_counterexample :
    generate_description "t" "d" "p" "k" none none envEmptyChoices =
      "Error generating description: list index out of range" ∧
    generate_description "t" "d" "p" "k" none none envEmptyChoices ≠ "" := by
  refine ⟨by decide, by decide⟩

/-- C6 (amended): on HTTP 200 the returned value is the content of the first
choice, whitespace-stripped; a missing `choices` key, a missing `message`
or a missing `content` yields the empty string; a present-but-empty
`choices` list yields the caught `IndexError` string instead. -/
theorem c6_extraction_cases (title description prompt_template api_key : String)
    (api_url repository : Option String) (env : Env) (resp : ChatResp)
    (hresp : env.chatResp = .ok resp) (h200 : resp.status_code = 200) :
    (∀ c rest m s, resp.body.choices = some (c :: rest) → c.message = some m →
      m.content = some s →
      generate_description title description prompt_template api_key api_url
        repository env = pyStrip s) ∧
    (resp.body.choices = none →
      generate_description title description prompt_template api_key api_url
        repository env = "") ∧
    (∀ c rest, resp.body.choices = some (c :: rest) → c.message = none →
      generate_description title description prompt_template api_key api_url
        repository env = "") ∧
    (∀ c rest m, resp.body.choices = some (c :: rest) → c.message = some m →
      m.content = none →
      generate_description title description prompt_template api_key api_url
        repository env = "") ∧
    (resp.body.choices = some [] →
      generate_description title description prompt_template api_key api_url
        repository env = "Error generating description: list index out of range") := by
  have h0 : pyStrip "" = "" := rfl
  refine ⟨?_, ?_, ?_, ?_, ?_⟩
  · intro c rest m s hch hm hs
    simp [generate_description, hresp, h200, extractContent, hch, hm, hs]
  · intro hch
    simp [generate_description, hresp, h200, extractContent, hch, h0]
  · intro c rest hch hm
    simp [generate_description, hresp, h200, extractContent, hch, hm, h0]
  · intro c rest m hch hm hc
    simp [generate_description, hresp, h200, extractContent, hch, hm, hc, h0]
  · intro hch
    have hext : extractContent resp.body = .error "list index out of range" := by
      simp [extractContent, hch]
    simp only [generate_description, hresp, h200, hext, if_pos rfl]
    rfl

/-- Witness for C6 (amended) at a concrete 200 response. -/
theorem c6_witness :
    generate_description "t" "d" "p" "k" none none envOk =
      "Hosts: X | Classification: Y" := by
  have h := (c6_extraction_cases "t" "d" "p" "k" none none envOk
    ⟨200, ⟨some [⟨some ⟨some "  Hosts: X | Classification: Y  "⟩⟩]⟩⟩ rfl rfl).1
    ⟨some ⟨some "  Hosts: X | Classification: Y  "⟩⟩ []
    ⟨some "  Hosts: X | Classification: Y  "⟩
    "  Hosts: X | Classification: Y  " rfl rfl rfl
  rw [h]
  rfl

/-! ### C7: text normalization of the second variant -/

/-- `takeWhile` over lines without the delimiter stops at the first line
containing it. -/
theorem takeWhile_no_pipe (before : List String) (p : String)
    (after : List String) (hb : ∀ b ∈ before, hasPipe b = false)
    (hp : hasPipe p = true) :
    (before ++ p :: after).takeWhile (fun s => ! hasPipe s) = before := by
  induction before with
  | nil => simp [List.takeWhile_cons, hp]
  | cons b bs ih =>
    have hb0 : hasPipe b = false := hb b (by simp)
    simp only [List.cons_append, List.takeWhile_cons, hb0]
    simp [ih fun x hx => hb x (by simp [hx])]

/-- `dropWhile` over lines without the delimiter reaches the first line
containing it. -/
theorem dropWhile_no_pipe (before : List String) (p : String)
    (after : List String) (hb : ∀ b ∈ before, hasPipe b = false)
    (hp : hasPipe p = true) :
    (before ++ p :: after).dropWhile (fun s => ! hasPipe s) = p :: after := by
  induction before with
  | nil => simp [List.dropWhile_cons, hp]
  | cons b bs ih =>
    have hb0 : hasPipe b = false := hb b (by simp)
    simp only [List.cons_append, List.dropWhile_cons, hb0]
    simp [ih fun x hx => hb x (by simp [hx])]

/-- C7: for a response whose first line does not echo the title and does not
contain the delimiter while a later line does, the normalizer promotes the
first delimiter line to the front, preserving the relative order of all
other lines; and a response whose first line already contains the delimiter
and does not echo the title is returned unaltered. -/
theorem c7_normalize_promote_or_keep (title : String) :
    (∀ (l p : String) (before after : List String),
      l ≠ title → hasPipe l = false → (∀ b ∈ before, hasPipe b = false) →
      hasPipe p = true →
      normalizeLines title (l :: (before ++ p :: after)) =
        p :: l :: (before ++ after)) ∧
    (∀ (l : String) (rest : List String), l ≠ title → hasPipe l = true →
      normalizeLines title (l :: rest) = l :: rest) := by
  constructor
  · intro l p before after htitle hl hbefore hp
    simp [normalizeLines, htitle, hl,
      takeWhile_no_pipe before p after hbefore hp,
      dropWhile_no_pipe before p after hbefore hp]
  · intro l rest htitle hl
    simp [normalizeLines, htitle, hl]

/-- Witness for C7 at concrete line lists. -/
theorem c7_witness :
    normalizeLines "Title" ["Scope", "Hosts: X | Classification: Y", "tail"] =
      ["Hosts: X | Classification: Y", "Scope", "tail"] ∧
    normalizeLines "Title" ["Hosts: X | Classification: Y", "", "Scope"] =
      ["Hosts: X | Classification: Y", "", "Scope"] := by
  constructor
  · exact (c7_normalize_promote_or_keep "Title").1 "Scope"
      "Hosts: X | Classification: Y" [] ["tail"] (by decide) (by decide)
      (by intro b hb; simp at hb) (by decide)
  · exact (c7_normalize_promote_or_keep "Title").2 "Hosts: X | Classification: Y"
      ["", "Scope"] (by decide) (by decide)

end AIDescriptor
